import Mathlib

/-!
# Verification of the ICABAR integration core

Shallow embedding of `icabar/models/integration.py` (class `IntegrationModule`)
and `icabar/utils/config.py` (`get_default_config`, `validate_config`).

Modelling conventions:
* Item identifiers are Python strings; we use `String`.
* Python floats are modelled as rationals (`ℚ`).
* A Python dict built by a comprehension is modelled as a function
  `ItemID → Option ℚ` built by a left fold over the enumerated list, so that
  later bindings of the same key overwrite earlier ones, exactly as in Python.
* The dict `combined_scores`, whose keys are the distinct members of
  `all_items`, is modelled as an association list in key-insertion order.
* `set(ups) | set(cps)` is iterated in an unspecified order in Python; we fix
  the deterministic representative `(ups ++ cps).dedup` (Mathlib's `dedup`
  keeps the last occurrence of each element).
* `sorted(keys, key=..., reverse=True)` is Python's stable descending sort;
  every stable sort computes the same list, so we model it by the stable
  insertion sort `List.insertionSort` with the relation `q.2 ≤ p.2`.
-/

namespace ICABAR

abbrev ItemID := String

/-- One step of the dict build `{item: 1 / (i + 1) for i, item in enumerate(l)}`:
binding the key `p.2` to `1 / (p.1 + 1)` shadows any earlier binding. -/
def rrStep (m : ItemID → Option ℚ) (p : ℕ × ItemID) : ItemID → Option ℚ :=
  fun x => if x = p.2 then some (1 / ((p.1 : ℚ) + 1)) else m x

/-- `user_scores = {item: 1 / (i + 1) for i, item in enumerate(user_predictions)}`
(and identically `context_scores`): reciprocal-rank score dict keyed by item. -/
def rrScores (l : List ItemID) : ItemID → Option ℚ :=
  l.enum.foldl rrStep (fun _ => none)

/-- Python `d.get(item, 0)`: dict lookup with default `0`. -/
def dictGet (d : ItemID → Option ℚ) (x : ItemID) : ℚ :=
  (d x).getD 0

/-- `all_items = set(user_predictions) | set(context_predictions)`, enumerated
in the deterministic order `(ups ++ cps).dedup`. -/
def all_items (ups cps : List ItemID) : List ItemID :=
  (ups ++ cps).dedup

/-- Lookup in an association-list dict, default `0` (Python `d[item]` /
`d.get(item, 0)` on the combined dict, whose keys are distinct). -/
def scoreOf : List (ItemID × ℚ) → ItemID → ℚ
  | [], _ => 0
  | p :: t, x => if x = p.1 then p.2 else scoreOf t x

/-- The loop `for item in all_items: combined_scores[item] =
w_user * score_u + w_context * score_c` with
`score_u = user_scores.get(item, 0)`, `score_c = context_scores.get(item, 0)`. -/
def combined_scores (wu wc : ℚ) (ups cps : List ItemID) : List (ItemID × ℚ) :=
  (all_items ups cps).map fun item =>
    (item, wu * dictGet (rrScores ups) item + wc * dictGet (rrScores cps) item)

/-- The loop `for item in combined_scores: combined_scores[item] *= (1 + novelty_factor)`. -/
def novelty_boost (nf : ℚ) (ps : List (ItemID × ℚ)) : List (ItemID × ℚ) :=
  ps.map fun p => (p.1, p.2 * (1 + nf))

/-- `sorted(combined_scores.keys(), key=lambda item: combined_scores[item], reverse=True)`:
Python's stable descending sort of the dict entries (we sort the entries and
project to keys; the keys are iterated in entry order, so this is the same). -/
def sortDesc (ps : List (ItemID × ℚ)) : List (ItemID × ℚ) :=
  ps.insertionSort fun p q => q.2 ≤ p.2

/-- The `integration` section of the config dict.  The fields read via
`config.get(key, 0.0)` are `Option`-valued (a missing key yields the default). -/
structure IntegrationConfig where
  ensemble_weights : List ℚ
  diversity_factor : Option ℚ
  novelty_factor : Option ℚ
  confidence_threshold : Option ℚ
  deriving DecidableEq

/-- State of `IntegrationModule`: `__init__` stores `config` and sets
`trained = False`; `train` unpacks `config['ensemble_weights']` into the three
weight attributes.  (Python leaves the weight attributes unset before `train`;
they are never read while `trained` is false, so we default them to `0`.) -/
structure IntegrationModule where
  config : IntegrationConfig
  trained : Bool
  user_analytics_weight : ℚ
  context_engine_weight : ℚ
  integration_weight : ℚ
  deriving DecidableEq

inductive IntegrationError where
  | untrained
  deriving DecidableEq

inductive TrainError where
  | unpackMismatch
  deriving DecidableEq

/-- `IntegrationModule.__init__(config)`. -/
def IntegrationModule.init (config : IntegrationConfig) : IntegrationModule :=
  { config := config, trained := false,
    user_analytics_weight := 0, context_engine_weight := 0, integration_weight := 0 }

/-- `IntegrationModule.train`: unpacks the three ensemble weights and sets the
trained flag.  Python raises a `ValueError` if the list does not have exactly
three elements (tuple-unpack mismatch). -/
def IntegrationModule.train (m : IntegrationModule) : Except TrainError IntegrationModule :=
  match m.config.ensemble_weights with
  | [wu, wc, wi] =>
      Except.ok { m with trained := true,
                         user_analytics_weight := wu,
                         context_engine_weight := wc,
                         integration_weight := wi }
  | _ => Except.error TrainError.unpackMismatch

/-- `IntegrationModule.integrate(user_predictions, context_predictions, user_id, timestamp)`.
The source also reads `config.get('diversity_factor', 0.0)` and
`config.get('confidence_threshold', 0.0)` into local variables that are never
used (the confidence filter is commented out); they are omitted here. -/
def IntegrationModule.integrate (m : IntegrationModule)
    (user_predictions context_predictions : List ItemID)
    (user_id : String) (timestamp : Int) : Except IntegrationError (List ItemID) :=
  if m.trained = false then Except.error IntegrationError.untrained
  else
    let combined := combined_scores m.user_analytics_weight m.context_engine_weight
      user_predictions context_predictions
    let novelty_factor := m.config.novelty_factor.getD 0
    let boosted := novelty_boost novelty_factor combined
    Except.ok ((sortDesc boosted).map Prod.fst)

/-- The method call seen as a transition on the whole environment: the Python
body of `integrate` contains no assignment to `self` or to its list arguments,
so the post-call module and argument lists are the pre-call ones. -/
def IntegrationModule.integrateCall (m : IntegrationModule)
    (user_predictions context_predictions : List ItemID)
    (user_id : String) (timestamp : Int) :
    Except IntegrationError (List ItemID) × IntegrationModule × List ItemID × List ItemID :=
  (m.integrate user_predictions context_predictions user_id timestamp,
   m, user_predictions, context_predictions)

/-- Replace the novelty factor of the module's config. -/
def IntegrationModule.setNovelty (m : IntegrationModule) (v : ℚ) : IntegrationModule :=
  { m with config := { m.config with novelty_factor := some v } }

/-! ## Configuration validation (`icabar/utils/config.py`) -/

/-- The `user_analytics` section of the configuration. -/
structure UserAnalyticsConfig where
  n_clusters : Int
  temporal_window : Int
  min_interactions : Int
  deriving DecidableEq

/-- The `context_engine` section of the configuration. -/
structure ContextEngineConfig where
  similarity_threshold : ℚ
  temporal_weight : ℚ
  spatial_weight : ℚ
  social_weight : ℚ
  activity_weight : ℚ
  deriving DecidableEq

/-- The top-level configuration dict; `Option` models a possibly missing key
(the `in config` checks of `validate_config`). -/
structure FrameworkConfig where
  user_analytics : Option UserAnalyticsConfig
  context_engine : Option ContextEngineConfig
  integration : Option IntegrationConfig
  deriving DecidableEq

/-- The distinct `ValueError`s raised by `validate_config`, one per message. -/
inductive ConfigError where
  | missingSection      -- "Configuration must contain ... keys."
  | nClustersNotPositive -- "n_clusters must be a positive integer."
  | weightsShape        -- "ensemble_weights must be a list of three floats."
  | weightsSum          -- "ensemble_weights must sum to 1.0."
  deriving DecidableEq

/-- `get_default_config()`. -/
def get_default_config : FrameworkConfig :=
  { user_analytics := some { n_clusters := 5, temporal_window := 30, min_interactions := 3 },
    context_engine := some { similarity_threshold := 7/10, temporal_weight := 3/10,
                             spatial_weight := 1/5, social_weight := 3/10,
                             activity_weight := 1/5 },
    integration := some { ensemble_weights := [2/5, 3/10, 3/10],
                          confidence_threshold := some (3/5),
                          diversity_factor := some (1/5),
                          novelty_factor := some (1/10) } }

/-- `validate_config(config)`.  The dynamic-typing checks
(`isinstance(n_clusters, int)`, `isinstance(weights, list)`,
`isinstance(w, float)`) hold by construction in the typed embedding; the
remaining checks are translated in source order. -/
def validate_config (c : FrameworkConfig) : Except ConfigError Unit :=
  match c.user_analytics, c.context_engine, c.integration with
  | some ua, some _, some integ =>
      if ua.n_clusters ≤ 0 then Except.error ConfigError.nClustersNotPositive
      else if integ.ensemble_weights.length ≠ 3 then Except.error ConfigError.weightsShape
      else if |integ.ensemble_weights.sum - 1| > 1/1000000 then Except.error ConfigError.weightsSum
      else Except.ok ()
  | _, _, _ => Except.error ConfigError.missingSection

/-- Replace the ensemble weights inside a configuration (leaving a missing
`integration` section missing). -/
def set_ensemble_weights (c : FrameworkConfig) (ws : List ℚ) : FrameworkConfig :=
  { c with integration := c.integration.map fun ic => { ic with ensemble_weights := ws } }

/-! ## Sample states used by the witnesses -/

/-- A concrete integration config with equal user/context weights. -/
def sample_config : IntegrationConfig :=
  { ensemble_weights := [1/2, 1/2, 0],
    diversity_factor := none, novelty_factor := none, confidence_threshold := none }

/-- `sample_config` after `__init__` and a successful `train`. -/
def sample_module : IntegrationModule :=
  { config := sample_config, trained := true,
    user_analytics_weight := 1/2, context_engine_weight := 1/2, integration_weight := 0 }

/-- A trained module with weights 0.6 / 0.4 and a negative novelty factor. -/
def negative_novelty_module : IntegrationModule :=
  { config := { ensemble_weights := [3/5, 2/5, 0],
                diversity_factor := none, novelty_factor := some (-2),
                confidence_threshold := none },
    trained := true,
    user_analytics_weight := 3/5, context_engine_weight := 2/5, integration_weight := 0 }

/-- A trained module with the weights of the spec's worked example
(w_user = 0.6, w_context = 0.4) and the default novelty factor 0.1. -/
def example_module : IntegrationModule :=
  { config := { ensemble_weights := [3/5, 2/5, 0],
                diversity_factor := some (1/5), novelty_factor := some (1/10),
                confidence_threshold := some (3/5) },
    trained := true,
    user_analytics_weight := 3/5, context_engine_weight := 2/5, integration_weight := 0 }

/-! ## Helper lemmas -/

theorem scoreOf_map (l : List ItemID) (f : ItemID → ℚ) (x : ItemID) :
    x ∈ l → scoreOf (l.map fun a => (a, f a)) x = f x := by
  induction l with
  | nil => intro hx; cases hx
  | cons a t ih =>
      intro hx
      by_cases hxa : x = a
      · subst hxa; simp [scoreOf]
      · have hxt : x ∈ t := by
          rcases List.mem_cons.1 hx with h | h
          · exact absurd h hxa
          · exact h
        simpa [scoreOf, hxa] using ih hxt

theorem scoreOf_novelty_boost (nf : ℚ) (ps : List (ItemID × ℚ)) (x : ItemID) :
    scoreOf (novelty_boost nf ps) x = scoreOf ps x * (1 + nf) := by
  induction ps with
  | nil => simp [novelty_boost, scoreOf]
  | cons p t ih =>
      by_cases hxp : x = p.1
      · simp [novelty_boost, scoreOf, hxp]
      · simpa [novelty_boost, scoreOf, hxp] using ih

theorem foldl_rrStep_not_mem (ps : List (ℕ × ItemID)) (m : ItemID → Option ℚ)
    (x : ItemID) (h : ∀ p ∈ ps, p.2 ≠ x) :
    ps.foldl rrStep m x = m x := by
  induction ps generalizing m with
  | nil => rfl
  | cons p t ih =>
      have hx : p.2 ≠ x := h p (List.mem_cons_self p t)
      have ht : ∀ q ∈ t, q.2 ≠ x := fun q hq => h q (List.mem_cons_of_mem p hq)
      calc (p :: t).foldl rrStep m x = t.foldl rrStep (rrStep m p) x := rfl
        _ = rrStep m p x := ih (rrStep m p) ht
        _ = m x := by simp [rrStep, Ne.symm hx]

theorem enumFrom_append (l₁ l₂ : List ItemID) (n : ℕ) :
    (l₁ ++ l₂).enumFrom n = l₁.enumFrom n ++ l₂.enumFrom (n + l₁.length) := by
  induction l₁ generalizing n with
  | nil => simp [List.enumFrom]
  | cons a t ih =>
      have harith : n + 1 + t.length = n + (a :: t).length := by
        simp only [List.length_cons]; omega
      calc ((a :: t) ++ l₂).enumFrom n
          = (n, a) :: (t ++ l₂).enumFrom (n + 1) := rfl
        _ = (n, a) :: (t.enumFrom (n + 1) ++ l₂.enumFrom (n + 1 + t.length)) := by
              rw [ih]
        _ = (a :: t).enumFrom n ++ l₂.enumFrom (n + (a :: t).length) := by
              rw [harith]; rfl

theorem snd_mem_of_mem_enumFrom (l : List ItemID) (n : ℕ) (p : ℕ × ItemID) :
    p ∈ l.enumFrom n → p.2 ∈ l := by
  induction l generalizing n with
  | nil => intro hp; cases hp
  | cons a t ih =>
      intro hp
      simp only [List.enumFrom] at hp
      rcases List.mem_cons.1 hp with h | h
      · subst h; simp
      · exact List.mem_cons_of_mem a (ih (n + 1) h)

theorem sortDesc_perm (ps : List (ItemID × ℚ)) : (sortDesc ps).Perm ps :=
  List.perm_insertionSort _ ps

theorem map_fst_novelty_boost (nf : ℚ) (ps : List (ItemID × ℚ)) :
    (novelty_boost nf ps).map Prod.fst = ps.map Prod.fst := by
  simp [novelty_boost]

theorem map_fst_map_pair (f : ItemID → ℚ) (l : List ItemID) :
    (l.map fun a => (a, f a)).map Prod.fst = l := by
  induction l with
  | nil => rfl
  | cons a t ih => simp only [List.map_cons]; rw [ih]

theorem map_fst_combined_scores (wu wc : ℚ) (ups cps : List ItemID) :
    (combined_scores wu wc ups cps).map Prod.fst = all_items ups cps :=
  map_fst_map_pair _ _

theorem orderedInsert_scale (c : ℚ) (hc : 0 < c) (p : ItemID × ℚ) (l : List (ItemID × ℚ)) :
    List.orderedInsert (fun p q => q.2 ≤ p.2) (p.1, p.2 * c)
        (l.map fun q => (q.1, q.2 * c))
      = (List.orderedInsert (fun p q => q.2 ≤ p.2) p l).map fun q => (q.1, q.2 * c) := by
  induction l with
  | nil => simp [List.orderedInsert]
  | cons b t ih =>
      by_cases hb : b.2 ≤ p.2
      · have hb' : b.2 * c ≤ p.2 * c := (mul_le_mul_right hc).2 hb
        simp [List.orderedInsert, hb, hb']
      · have hb' : ¬ b.2 * c ≤ p.2 * c := fun hle => hb ((mul_le_mul_right hc).1 hle)
        simp [List.orderedInsert, hb, hb', ih]

theorem sortDesc_scale (c : ℚ) (hc : 0 < c) (l : List (ItemID × ℚ)) :
    sortDesc (l.map fun q => (q.1, q.2 * c)) = (sortDesc l).map fun q => (q.1, q.2 * c) := by
  induction l with
  | nil => rfl
  | cons p t ih =>
      show List.orderedInsert _ (p.1, p.2 * c) ((t.map fun q => (q.1, q.2 * c)).insertionSort _)
          = _
      rw [show (t.map fun q => (q.1, q.2 * c)).insertionSort (fun p q => q.2 ≤ p.2)
            = sortDesc (t.map fun q => (q.1, q.2 * c)) from rfl, ih]
      exact orderedInsert_scale c hc p (sortDesc t)

/-- The keys of the stable descending sort are unchanged by a uniform positive
rescaling of the values. -/
theorem sortDesc_novelty_fst (nf : ℚ) (h : 0 < 1 + nf) (l : List (ItemID × ℚ)) :
    (sortDesc (novelty_boost nf l)).map Prod.fst = (sortDesc l).map Prod.fst := by
  have : novelty_boost nf l = l.map fun q => (q.1, q.2 * (1 + nf)) := rfl
  rw [this, sortDesc_scale (1 + nf) h l, List.map_map]
  rfl

/-! ## Claim theorems -/

/-- Claim C1: for every pair of input lists and trained non-negative weights,
`integrate` gives every item of the candidate universe the combined score
`w_user * score_user.get(item, 0) + w_context * score_context.get(item, 0)`,
drops no item of either list, and returns a list whose length is the number of
distinct items in the union of the two input lists. -/
theorem integrate_combined_scores_universe (m : IntegrationModule)
    (ups cps : List ItemID) (u : String) (t : Int) (out : List ItemID)
    (hwu : 0 ≤ m.user_analytics_weight) (hwc : 0 ≤ m.context_engine_weight)
    (hok : m.integrate ups cps u t = Except.ok out) :
    (∀ x ∈ all_items ups cps,
      scoreOf (combined_scores m.user_analytics_weight m.context_engine_weight ups cps) x
        = m.user_analytics_weight * dictGet (rrScores ups) x
          + m.context_engine_weight * dictGet (rrScores cps) x)
    ∧ (∀ x, x ∈ ups ∨ x ∈ cps → x ∈ out)
    ∧ out.length = (ups.toFinset ∪ cps.toFinset).card := by
  simp only [IntegrationModule.integrate] at hok
  split at hok
  · cases hok
  · replace hok := (Except.ok.inj hok).symm
    subst hok
    refine ⟨?_, ?_, ?_⟩
    · intro x hx
      rw [combined_scores]
      exact scoreOf_map _ _ x hx
    · intro x hx
      have hmem : x ∈ all_items ups cps :=
        List.mem_dedup.2 (List.mem_append.2 hx)
      apply (((sortDesc_perm _).map Prod.fst).mem_iff).2
      rw [map_fst_novelty_boost, map_fst_combined_scores]
      exact hmem
    · rw [List.length_map, (sortDesc_perm _).length_eq, novelty_boost,
        List.length_map, combined_scores, List.length_map]
      rw [← List.toFinset_append, List.card_toFinset]
      rfl

/-- Closed instance of C1: a trained module with weights `(1/2, 1/2, 0)` on
inputs `["A", "B"]` and `[]` returns `["A", "B"]`, which satisfies the three
conclusions of `integrate_combined_scores_universe`. -/
theorem integrate_combined_scores_universe_witness :
    (∀ x ∈ all_items ["A", "B"] [],
      scoreOf (combined_scores sample_module.user_analytics_weight
          sample_module.context_engine_weight ["A", "B"] []) x
        = sample_module.user_analytics_weight * dictGet (rrScores ["A", "B"]) x
          + sample_module.context_engine_weight * dictGet (rrScores []) x)
    ∧ (∀ x, x ∈ ["A", "B"] ∨ x ∈ ([] : List ItemID) → x ∈ ["A", "B"])
    ∧ (["A", "B"] : List ItemID).length
        = ((["A", "B"] : List ItemID).toFinset ∪ ([] : List ItemID).toFinset).card :=
  integrate_combined_scores_universe sample_module ["A", "B"] [] "u" 0 ["A", "B"]
    (by norm_num [sample_module]) (by norm_num [sample_module])
    (by
      have hall : all_items ["A", "B"] [] = ["A", "B"] := by decide
      simp [IntegrationModule.integrate, sample_module, sample_config, combined_scores,
        hall, novelty_boost, sortDesc, rrScores, rrStep, dictGet, List.enum, List.enumFrom,
        List.insertionSort, List.orderedInsert]
      norm_num)

/-- Counterexample to C2 as stated: in the dict comprehension
`{item: 1 / (i + 1) for i, item in enumerate(lst)}` a later duplicate
overwrites the earlier binding, so for `['X', 'Y', 'X']` the item `X` is
scored from rank 2 (score 1/3), not from rank 0 (score 1.0). -/
theorem rr_first_rank_counterexample :
    rrScores ["X", "Y", "X"] "X" = some (1/3)
    ∧ ¬ rrScores ["X", "Y", "X"] "X" = some 1 := by
  constructor
  · norm_num [rrScores, rrStep, List.enum, List.enumFrom]
  · norm_num [rrScores, rrStep, List.enum, List.enumFrom]

/-- Claim C2 (amended): the reciprocal-rank scoring step assigns a duplicated
item the score `1 / (1 + r)` where `r` is the 0-based position of the item's
last occurrence (the one-pass dict build overwrites earlier bindings); in
particular for `['X', 'Y', 'X']` the item `X` receives score 1/3 from rank 2,
never 1.0 from rank 0. -/
theorem rrScores_last_occurrence (l₁ l₂ : List ItemID) (x : ItemID) (h : x ∉ l₂) :
    rrScores (l₁ ++ x :: l₂) x = some (1 / ((l₁.length : ℚ) + 1)) := by
  have henum : (l₁ ++ x :: l₂).enum
      = l₁.enumFrom 0 ++ (l₁.length, x) :: l₂.enumFrom (l₁.length + 1) := by
    show (l₁ ++ x :: l₂).enumFrom 0 = _
    rw [enumFrom_append]
    simp [List.enumFrom]
  have hnot : ∀ p ∈ l₂.enumFrom (l₁.length + 1), p.2 ≠ x := by
    intro p hp hpx
    exact h (hpx ▸ snd_mem_of_mem_enumFrom l₂ (l₁.length + 1) p hp)
  calc rrScores (l₁ ++ x :: l₂) x
      = ((l₁.length, x) :: l₂.enumFrom (l₁.length + 1)).foldl rrStep
          (l₁.enumFrom 0 |>.foldl rrStep fun _ => none) x := by
        rw [rrScores, henum, List.foldl_append]
    _ = (l₂.enumFrom (l₁.length + 1)).foldl rrStep
          (rrStep (l₁.enumFrom 0 |>.foldl rrStep fun _ => none) (l₁.length, x)) x := rfl
    _ = rrStep (l₁.enumFrom 0 |>.foldl rrStep fun _ => none) (l₁.length, x) x :=
        foldl_rrStep_not_mem _ _ x hnot
    _ = some (1 / ((l₁.length : ℚ) + 1)) := by simp [rrStep]

/-- Closed instance of C2 (amended) at `['X', 'Y', 'X']`: the last occurrence
of `X` is at position 2, giving score 1/3. -/
theorem rrScores_last_occurrence_witness :
    ("X" : ItemID) ∉ ([] : List ItemID)
    ∧ rrScores (["X", "Y"] ++ "X" :: []) "X"
        = some (1 / (((["X", "Y"] : List ItemID).length : ℚ) + 1)) :=
  ⟨by simp, rrScores_last_occurrence ["X", "Y"] [] "X" (by simp)⟩

/-- Claim C3: `validate_config` accepts ensemble weights `[0.4, 0.3, 0.3]`,
rejects `[0.5, 0.3, 0.3]` (sum 1.1) with the sum-constraint error, and rejects
any weight list of length two or four with the shape-constraint error. -/
theorem validate_config_ensemble_weights (ws : List ℚ)
    (h : ws.length = 2 ∨ ws.length = 4) :
    validate_config (set_ensemble_weights get_default_config [2/5, 3/10, 3/10])
      = Except.ok ()
    ∧ validate_config (set_ensemble_weights get_default_config [1/2, 3/10, 3/10])
        = Except.error ConfigError.weightsSum
    ∧ validate_config (set_ensemble_weights get_default_config ws)
        = Except.error ConfigError.weightsShape := by
  refine ⟨?_, ?_, ?_⟩
  · norm_num [validate_config, set_ensemble_weights, get_default_config]
  · have habs : |(1 : ℚ)/10| = 1/10 := abs_of_nonneg (by norm_num)
    norm_num [validate_config, set_ensemble_weights, get_default_config, habs]
  · have h3 : ws.length ≠ 3 := by omega
    simp [validate_config, set_ensemble_weights, get_default_config, h3]

/-- Closed instance of C3 at the two-element weight list `[0, 0]`. -/
theorem validate_config_ensemble_weights_witness :
    (([0, 0] : List ℚ).length = 2 ∨ ([0, 0] : List ℚ).length = 4)
    ∧ (validate_config (set_ensemble_weights get_default_config [2/5, 3/10, 3/10])
        = Except.ok ()
      ∧ validate_config (set_ensemble_weights get_default_config [1/2, 3/10, 3/10])
          = Except.error ConfigError.weightsSum
      ∧ validate_config (set_ensemble_weights get_default_config [0, 0])
          = Except.error ConfigError.weightsShape) :=
  ⟨Or.inl rfl, validate_config_ensemble_weights [0, 0] (Or.inl rfl)⟩

/-- Claim C4: calling `integrate` on an untrained module returns the untrained
error, produces no partial result, and leaves the module state unchanged. -/
theorem integrate_untrained_error (m : IntegrationModule) (ups cps : List ItemID)
    (u : String) (t : Int) (h : m.trained = false) :
    (m.integrateCall ups cps u t).1 = Except.error IntegrationError.untrained
    ∧ (m.integrateCall ups cps u t).2.1 = m := by
  constructor
  · simp [IntegrationModule.integrateCall, IntegrationModule.integrate, h]
  · rfl

/-- Closed instance of C4: a freshly constructed (untrained) module rejects
`integrate` and is left unchanged. -/
theorem integrate_untrained_error_witness :
    (IntegrationModule.init sample_config).trained = false
    ∧ ((IntegrationModule.init sample_config).integrateCall ["A"] ["B"] "u" 0).1
        = Except.error IntegrationError.untrained
    ∧ ((IntegrationModule.init sample_config).integrateCall ["A"] ["B"] "u" 0).2.1
        = IntegrationModule.init sample_config :=
  ⟨rfl, integrate_untrained_error (IntegrationModule.init sample_config) ["A"] ["B"] "u" 0 rfl⟩

/-- Claim C8: `integrate` is a deterministic function of the prediction lists
and the module's trained weights alone; the `user_id` and `timestamp`
arguments never affect the output (they are pure pass-through parameters, and
the embedding of the method body does not mention them). -/
theorem integrate_ignores_user_id_timestamp (m : IntegrationModule)
    (ups cps : List ItemID) (u₁ u₂ : String) (t₁ t₂ : Int) :
    m.integrate ups cps u₁ t₁ = m.integrate ups cps u₂ t₂ := rfl

/-- Claim C9: `validate_config` does not enforce non-negativity of the
ensemble weights: `[1.5, -0.25, -0.25]` sums to 1.0 and passes validation. -/
theorem validate_config_negative_weights :
    validate_config (set_ensemble_weights get_default_config [3/2, -1/4, -1/4])
      = Except.ok () := by
  norm_num [validate_config, set_ensemble_weights, get_default_config]

/-- Claim C10: a successful call to `integrate` mutates neither the module
(trained flag, the three stored weights, the config) nor its two list
arguments. -/
theorem integrate_frame (m : IntegrationModule) (ups cps : List ItemID)
    (u : String) (t : Int) (out : List ItemID)
    (hok : (m.integrateCall ups cps u t).1 = Except.ok out) :
    (m.integrateCall ups cps u t).2.1.trained = m.trained
    ∧ (m.integrateCall ups cps u t).2.1.user_analytics_weight = m.user_analytics_weight
    ∧ (m.integrateCall ups cps u t).2.1.context_engine_weight = m.context_engine_weight
    ∧ (m.integrateCall ups cps u t).2.1.integration_weight = m.integration_weight
    ∧ (m.integrateCall ups cps u t).2.1.config = m.config
    ∧ (m.integrateCall ups cps u t).2.2.1 = ups
    ∧ (m.integrateCall ups cps u t).2.2.2 = cps :=
  ⟨rfl, rfl, rfl, rfl, rfl, rfl, rfl⟩

/-- Closed instance of C10: a successful call on the sample module leaves the
module and the argument lists unchanged. -/
theorem integrate_frame_witness :
    (sample_module.integrateCall ["A", "B"] [] "u" 0).2.1.trained = sample_module.trained
    ∧ (sample_module.integrateCall ["A", "B"] [] "u" 0).2.1.user_analytics_weight
        = sample_module.user_analytics_weight
    ∧ (sample_module.integrateCall ["A", "B"] [] "u" 0).2.1.context_engine_weight
        = sample_module.context_engine_weight
    ∧ (sample_module.integrateCall ["A", "B"] [] "u" 0).2.1.integration_weight
        = sample_module.integration_weight
    ∧ (sample_module.integrateCall ["A", "B"] [] "u" 0).2.1.config = sample_module.config
    ∧ (sample_module.integrateCall ["A", "B"] [] "u" 0).2.2.1 = ["A", "B"]
    ∧ (sample_module.integrateCall ["A", "B"] [] "u" 0).2.2.2 = ([] : List ItemID) :=
  integrate_frame sample_module ["A", "B"] [] "u" 0 ["A", "B"]
    (by
      have hall : all_items ["A", "B"] [] = ["A", "B"] := by decide
      simp [IntegrationModule.integrateCall, IntegrationModule.integrate, sample_module,
        sample_config, combined_scores, hall, novelty_boost, sortDesc, rrScores, rrStep,
        dictGet, List.enum, List.enumFrom, List.insertionSort, List.orderedInsert]
      norm_num)

/-- Counterexample to C5 as stated: with `novelty_factor = -2` (accepted by the
code, which never validates the factor) the multiplier `1 + novelty_factor`
is negative and reverses the ranking, so the final ranking is NOT identical to
the one with `novelty_factor = 0`. -/
theorem novelty_negative_counterexample :
    negative_novelty_module.integrate ["A", "B"] [] "u" 0 = Except.ok ["B", "A"]
    ∧ (negative_novelty_module.setNovelty 0).integrate ["A", "B"] [] "u" 0
        = Except.ok ["A", "B"]
    ∧ ¬ negative_novelty_module.integrate ["A", "B"] [] "u" 0
        = (negative_novelty_module.setNovelty 0).integrate ["A", "B"] [] "u" 0 := by
  have hall : all_items ["A", "B"] [] = ["A", "B"] := by decide
  have h1 : negative_novelty_module.integrate ["A", "B"] [] "u" 0
      = Except.ok ["B", "A"] := by
    simp [IntegrationModule.integrate, negative_novelty_module, combined_scores, hall,
      novelty_boost, sortDesc, rrScores, rrStep, dictGet, List.enum, List.enumFrom,
      List.insertionSort, List.orderedInsert]
    norm_num
  have h2 : (negative_novelty_module.setNovelty 0).integrate ["A", "B"] [] "u" 0
      = Except.ok ["A", "B"] := by
    simp [IntegrationModule.integrate, IntegrationModule.setNovelty,
      negative_novelty_module, combined_scores, hall, novelty_boost, sortDesc,
      rrScores, rrStep, dictGet, List.enum, List.enumFrom,
      List.insertionSort, List.orderedInsert]
    norm_num
  refine ⟨h1, h2, ?_⟩
  rw [h1, h2]
  simp

/-- Claim C5 (amended): the novelty adjustment multiplies every entry of the
combined score map by the single scalar `1 + novelty_factor`; and whenever
`1 + novelty_factor` is positive (in particular for every non-negative
configured factor) this uniform rescaling changes no relative order: the final
ranking returned by `integrate` is identical to the one with
`novelty_factor = 0`.  (When `1 + novelty_factor ≤ 0` the rescaling can
reverse or collapse the order, see `novelty_negative_counterexample`.) -/
theorem novelty_uniform_scaling_order (m : IntegrationModule)
    (ups cps : List ItemID) (u : String) (t : Int)
    (h : 0 < 1 + m.config.novelty_factor.getD 0) :
    (∀ x : ItemID,
      scoreOf (novelty_boost (m.config.novelty_factor.getD 0)
          (combined_scores m.user_analytics_weight m.context_engine_weight ups cps)) x
        = scoreOf (combined_scores m.user_analytics_weight m.context_engine_weight ups cps) x
            * (1 + m.config.novelty_factor.getD 0))
    ∧ m.integrate ups cps u t = (m.setNovelty 0).integrate ups cps u t := by
  constructor
  · intro x
    exact scoreOf_novelty_boost _ _ x
  · cases htr : m.trained with
    | false =>
        simp [IntegrationModule.integrate, IntegrationModule.setNovelty, htr]
    | true =>
        simp only [IntegrationModule.integrate, IntegrationModule.setNovelty, htr]
        norm_num
        rw [sortDesc_novelty_fst _ h, sortDesc_novelty_fst 0 (by norm_num)]

/-- Closed instance of C5 (amended) at the sample module (novelty factor
absent, hence 0). -/
theorem novelty_uniform_scaling_order_witness :
    0 < 1 + sample_module.config.novelty_factor.getD 0
    ∧ ((∀ x : ItemID,
        scoreOf (novelty_boost (sample_module.config.novelty_factor.getD 0)
            (combined_scores sample_module.user_analytics_weight
              sample_module.context_engine_weight ["A"] ["B"])) x
          = scoreOf (combined_scores sample_module.user_analytics_weight
                sample_module.context_engine_weight ["A"] ["B"]) x
              * (1 + sample_module.config.novelty_factor.getD 0))
      ∧ sample_module.integrate ["A"] ["B"] "u" 0
          = (sample_module.setNovelty 0).integrate ["A"] ["B"] "u" 0) :=
  ⟨by norm_num [sample_module, sample_config],
   novelty_uniform_scaling_order sample_module ["A"] ["B"] "u" 0
     (by norm_num [sample_module, sample_config])⟩

/-- Claim C6: with `user_predictions = ['A','B','C']`,
`context_predictions = ['B','D','A']`, `w_user = 0.6`, `w_context = 0.4`, the
combined scores are A = 11/15, B = 7/10, C = 1/5, D = 1/5, and the returned
order begins with A followed by B. -/
theorem integrate_worked_example (m : IntegrationModule) (u : String) (t : Int)
    (htr : m.trained = true)
    (hwu : m.user_analytics_weight = 3/5) (hwc : m.context_engine_weight = 2/5)
    (hnf : 0 < 1 + m.config.novelty_factor.getD 0) :
    scoreOf (combined_scores (3/5) (2/5) ["A", "B", "C"] ["B", "D", "A"]) "A" = 11/15
    ∧ scoreOf (combined_scores (3/5) (2/5) ["A", "B", "C"] ["B", "D", "A"]) "B" = 7/10
    ∧ scoreOf (combined_scores (3/5) (2/5) ["A", "B", "C"] ["B", "D", "A"]) "C" = 1/5
    ∧ scoreOf (combined_scores (3/5) (2/5) ["A", "B", "C"] ["B", "D", "A"]) "D" = 1/5
    ∧ ∃ rest, m.integrate ["A", "B", "C"] ["B", "D", "A"] u t
        = Except.ok ("A" :: "B" :: rest) := by
  have hall : all_items ["A", "B", "C"] ["B", "D", "A"] = ["C", "B", "D", "A"] := by decide
  refine ⟨?_, ?_, ?_, ?_, ⟨["C", "D"], ?_⟩⟩
  · simp [combined_scores, hall, scoreOf, dictGet, rrScores, rrStep,
      List.enum, List.enumFrom]
    norm_num
  · simp [combined_scores, hall, scoreOf, dictGet, rrScores, rrStep,
      List.enum, List.enumFrom]
    norm_num
  · simp [combined_scores, hall, scoreOf, dictGet, rrScores, rrStep,
      List.enum, List.enumFrom]
    norm_num
  · simp [combined_scores, hall, scoreOf, dictGet, rrScores, rrStep,
      List.enum, List.enumFrom]
    norm_num
  · rw [IntegrationModule.integrate, if_neg (by simp [htr])]
    show Except.ok ((sortDesc (novelty_boost (m.config.novelty_factor.getD 0)
        (combined_scores m.user_analytics_weight m.context_engine_weight
          ["A", "B", "C"] ["B", "D", "A"]))).map Prod.fst) = _
    rw [hwu, hwc, sortDesc_novelty_fst _ hnf]
    have hsorted : (sortDesc (combined_scores (3/5) (2/5) ["A", "B", "C"] ["B", "D", "A"])).map
        Prod.fst = ["A", "B", "C", "D"] := by
      simp [combined_scores, hall, sortDesc, rrScores, rrStep, dictGet,
        List.enum, List.enumFrom, List.insertionSort, List.orderedInsert]
      norm_num
    rw [hsorted]

/-- Closed instance of C6 at a trained module with weights (0.6, 0.4, 0) and
the default novelty factor 0.1. -/
theorem integrate_worked_example_witness :
    example_module.trained = true
    ∧ example_module.user_analytics_weight = 3/5
    ∧ example_module.context_engine_weight = 2/5
    ∧ 0 < 1 + example_module.config.novelty_factor.getD 0
    ∧ (scoreOf (combined_scores (3/5) (2/5) ["A", "B", "C"] ["B", "D", "A"]) "A" = 11/15
      ∧ scoreOf (combined_scores (3/5) (2/5) ["A", "B", "C"] ["B", "D", "A"]) "B" = 7/10
      ∧ scoreOf (combined_scores (3/5) (2/5) ["A", "B", "C"] ["B", "D", "A"]) "C" = 1/5
      ∧ scoreOf (combined_scores (3/5) (2/5) ["A", "B", "C"] ["B", "D", "A"]) "D" = 1/5
      ∧ ∃ rest, example_module.integrate ["A", "B", "C"] ["B", "D", "A"] "u" 0
          = Except.ok ("A" :: "B" :: rest)) :=
  ⟨rfl, rfl, rfl, by norm_num [example_module],
   integrate_worked_example example_module "u" 0 rfl rfl rfl
     (by norm_num [example_module])⟩

/-- Claim C7: with both inputs empty `integrate` returns the empty list; with
`user_predictions = ['A','B']` and `context_predictions = []` it returns
exactly `['A','B']`.  The weight and novelty hypotheses are strict, so the
scores of A and B are strictly separated and the concluded order is forced by
the scores alone, independent of the unspecified enumeration order of the
candidate set (exact ties are tie-broken non-deterministically by the code and
are therefore not claimed). -/
theorem integrate_empty_inputs (m : IntegrationModule) (u : String) (t : Int)
    (htr : m.trained = true) (hwu : 0 < m.user_analytics_weight)
    (hnf : 0 < 1 + m.config.novelty_factor.getD 0) :
    m.integrate [] [] u t = Except.ok []
    ∧ m.integrate ["A", "B"] [] u t = Except.ok ["A", "B"] := by
  constructor
  · rw [IntegrationModule.integrate, if_neg (by simp [htr])]
    rfl
  · have hall : all_items ["A", "B"] [] = ["A", "B"] := by decide
    have hA : dictGet (rrScores ["A", "B"]) "A" = 1 := by
      simp [dictGet, rrScores, rrStep, List.enum, List.enumFrom]
    have hB : dictGet (rrScores ["A", "B"]) "B" = 1/2 := by
      simp [dictGet, rrScores, rrStep, List.enum, List.enumFrom]
      norm_num
    have hA0 : dictGet (rrScores []) "A" = 0 := rfl
    have hB0 : dictGet (rrScores []) "B" = 0 := rfl
    have hcs : combined_scores m.user_analytics_weight m.context_engine_weight
        ["A", "B"] []
        = [("A", m.user_analytics_weight), ("B", m.user_analytics_weight * (1/2))] := by
      rw [combined_scores, hall]
      simp only [List.map_cons, List.map_nil, hA, hB, hA0, hB0,
        mul_one, mul_zero, add_zero]
    rw [IntegrationModule.integrate, if_neg (by simp [htr])]
    show Except.ok ((sortDesc (novelty_boost (m.config.novelty_factor.getD 0)
        (combined_scores m.user_analytics_weight m.context_engine_weight
          ["A", "B"] []))).map Prod.fst) = _
    rw [hcs]
    have hle : m.user_analytics_weight * (1/2) * (1 + m.config.novelty_factor.getD 0)
        ≤ m.user_analytics_weight * (1 + m.config.novelty_factor.getD 0) := by
      nlinarith
    simp only [novelty_boost, List.map_cons, List.map_nil, sortDesc,
      List.insertionSort, List.orderedInsert]
    rw [if_pos hle]
    rfl

/-- Closed instance of C7 at the sample trained module. -/
theorem integrate_empty_inputs_witness :
    sample_module.trained = true
    ∧ 0 < sample_module.user_analytics_weight
    ∧ 0 < 1 + sample_module.config.novelty_factor.getD 0
    ∧ (sample_module.integrate [] [] "u" 0 = Except.ok []
      ∧ sample_module.integrate ["A", "B"] [] "u" 0 = Except.ok ["A", "B"]) :=
  ⟨rfl, by norm_num [sample_module], by norm_num [sample_module, sample_config],
   integrate_empty_inputs sample_module "u" 0 rfl (by norm_num [sample_module])
     (by norm_num [sample_module, sample_config])⟩

end ICABAR
